import Mathlib

/-!
# Shallow embedding of libsocket's `Socket` class (src/cpp/Socket.hpp)

The C++ class `Socket : public std::ios` wraps one OS socket descriptor
(`_sd`, sentinel `-1`), a copy of the last OS error code (`_errno`), and the
inherited std::ios condition bits (eofbit / failbit / badbit; `goodbit = 0`).

Modelling decisions, faithful to the source:

* The std::ios state is an explicit record of the three condition bits.
  `setstate(b)` is `clear(rdstate() | b)`, i.e. a MERGE of bits; in
  particular `setstate(goodbit)` merges with `0` and therefore changes
  nothing.  `good()` is `rdstate() == 0`; `fail()` is `failbit || badbit`;
  `operator bool` is `!fail()` and `operator!` is `fail()`.  The initial
  state of a freshly constructed object is modelled as the clean good state.
* The OS is external: every embedded operation takes the result(s) of the
  OS calls it may issue as explicit arguments, and returns, next to the
  updated socket, the list of OS calls it actually issued, in order.
* `::read`/`::write` return a byte count `>= 0` or exactly `-1` on error,
  modelled by the inductive `OSReadResult`.
* The global `errno` after an operation is passed in as an argument and
  stored into `_errno` exactly where the source does `_errno = errno`.
-/

namespace LibSocket

/-- The std::ios condition bits carried by `Socket` (eofbit, failbit, badbit).
`goodbit` is the absence of all three. -/
structure IOState where
  eof : Bool
  fail : Bool
  bad : Bool
deriving DecidableEq, Repr

/-- `goodbit`: the empty bit mask (value 0 in std::ios). -/
def goodbit : IOState := ⟨false, false, false⟩

/-- `eofbit` as a mask. -/
def eofbit : IOState := ⟨true, false, false⟩

/-- `failbit` as a mask. -/
def failbit : IOState := ⟨false, true, false⟩

/-- `badbit` as a mask. -/
def badbit : IOState := ⟨false, false, true⟩

/-- The clean state `rdstate() == goodbit`. -/
def goodState : IOState := ⟨false, false, false⟩

/-- `std::ios::setstate(b)` is `clear(rdstate() | b)`: it ORs the new mask
into the current bits.  Merging `goodbit` (= 0) changes nothing. -/
def IOState.setstate (s b : IOState) : IOState :=
  ⟨s.eof || b.eof, s.fail || b.fail, s.bad || b.bad⟩

/-- `std::ios::good()`: true iff no condition bit is set. -/
def IOState.good (s : IOState) : Bool :=
  !s.eof && !s.fail && !s.bad

/-- `std::ios::fail()`: failbit or badbit (eofbit alone is not failure).
`operator bool` is its negation, `operator!` is this. -/
def IOState.failed (s : IOState) : Bool :=
  s.fail || s.bad

/-- The embedded `Socket` object: `_sd` descriptor (sentinel -1),
`_errno` copy of the OS error code, and the std::ios condition bits. -/
structure Socket where
  sd : Int
  errno : Int
  status : IOState
deriving DecidableEq, Repr

/-- Result of an OS call that returns 0 on success and -1 on failure
(`setsockopt`, `bind`, `::listen`, `::connect`, `::close`, `getsockopt`,
`getsockname`, `getpeername`). -/
inductive OSRes where
  | ok
  | err
deriving DecidableEq, Repr

/-- Result of `::read` / `::write`: a transferred byte count, or -1. -/
inductive OSReadResult where
  | ok (n : Nat)
  | err
deriving DecidableEq, Repr

/-- Names of the OS calls the wrapper can issue, used to trace which calls
an operation actually performed. -/
inductive OSCall where
  | osSetsockopt
  | osBind
  | osListen
  | osAccept
  | osConnect
  | osClose
  | osRead
  | osWrite
  | osGetsockopt
deriving DecidableEq, Repr

/-- `bool Socket::isOpen() const { return (_sd != -1); }` -/
def Socket.isOpen (s : Socket) : Bool :=
  s.sd != -1

/-- `void Socket::close()`:
`if (::close(_sd) == -1) setstate(failbit); else setstate(goodbit);
 _sd = -1; _errno = errno;`
`res` is the `::close` result, `e` the OS `errno` afterwards.  Note that
`setstate(goodbit)` merges the empty mask and hence leaves the previous
bits in place. -/
def Socket.close (s : Socket) (res : OSRes) (e : Int) : Socket × List OSCall :=
  let st := if res = OSRes.err then s.status.setstate failbit
            else s.status.setstate goodbit
  ({ sd := -1, errno := e, status := st }, [OSCall.osClose])

/-- `Socket::Socket(int sd)`: stores `sd`, issues
`setsockopt(_sd, SOL_SOCKET, SO_REUSEADDR, ...)`; on its failure sets
`failbit`; then `if (!*this) this->close();` and finally `_errno = errno`.
`ssoRes` is the setsockopt result, `closeRes`/`eClose` feed the nested
`close()` when it runs, and `eFinal` is the errno captured at the end. -/
def mkSocket (sd : Int) (ssoRes : OSRes) (closeRes : OSRes)
    (eClose : Int) (eFinal : Int) : Socket × List OSCall :=
  let s0 : Socket := { sd := sd, errno := 0, status := goodState }
  let s1 := if ssoRes = OSRes.err then
              { s0 with status := s0.status.setstate failbit }
            else s0
  if s1.status.failed then
    let p := s1.close closeRes eClose
    ({ p.1 with errno := eFinal }, OSCall.osSetsockopt :: p.2)
  else
    ({ s1 with errno := eFinal }, [OSCall.osSetsockopt])

/-- `Socket::Socket(const Socket &&other) : _sd{ std::move(other._sd) } {}`
`other` is a const rvalue reference, so `std::move(other._sd)` is a plain
copy of the descriptor and the source object is not modified at all.
Returns (new object, source after the construction).  The new object's
`_errno` comes from its member initialiser `{0}` and its stream state is
modelled as the fresh clean state. -/
def moveConstruct (other : Socket) : Socket × Socket :=
  ({ sd := other.sd, errno := 0, status := goodState }, other)

/-- `void Socket::listen(in_port_t, in_addr_t, int)`:
`if (good() && ::bind(...) == -1) setstate(failbit);
 if (good() && ::listen(...) == -1) setstate(failbit);
 _errno = errno;`
Short-circuit `&&` means `::bind` is issued only when `good()` holds, and
`::listen` only when `good()` still holds after the bind step. -/
def Socket.listen (s : Socket) (bindRes lisRes : OSRes) (e : Int) :
    Socket × List OSCall :=
  if s.status.good then
    if bindRes = OSRes.err then
      ({ s with status := s.status.setstate failbit, errno := e },
       [OSCall.osBind])
    else
      if lisRes = OSRes.err then
        ({ s with status := s.status.setstate failbit, errno := e },
         [OSCall.osBind, OSCall.osListen])
      else
        ({ s with errno := e }, [OSCall.osBind, OSCall.osListen])
  else
    ({ s with errno := e }, [])

/-- `void Socket::connect(in_port_t, in_addr_t)`:
`if (good() && ::connect(...) == -1) setstate(failbit); _errno = errno;` -/
def Socket.connect (s : Socket) (res : OSRes) (e : Int) :
    Socket × List OSCall :=
  if s.status.good then
    if res = OSRes.err then
      ({ s with status := s.status.setstate failbit, errno := e },
       [OSCall.osConnect])
    else
      ({ s with errno := e }, [OSCall.osConnect])
  else
    ({ s with errno := e }, [])

/-- `Socket &Socket::read(char *buffer, std::streamsize len)`:
`ssize_t rdsize = ::read(_sd, buffer, len); _errno = errno;
 if (rdsize == 0 && len > 0) setstate(eofbit);
 if (rdsize == -1) setstate(badbit);
 return (*this);`
There is no status guard: the OS read is always issued, exactly once. -/
def Socket.read (s : Socket) (len : Int) (res : OSReadResult) (e : Int) :
    Socket × List OSCall :=
  let st := match res with
    | OSReadResult.ok n =>
        if n = 0 ∧ len > 0 then s.status.setstate eofbit else s.status
    | OSReadResult.err => s.status.setstate badbit
  ({ s with status := st, errno := e }, [OSCall.osRead])

/-- `Socket &Socket::write(const char *buffer, std::streamsize len)`:
`ssize_t wrsize = ::write(_sd, buffer, len); _errno = errno;
 if ((wrsize == 0 && len > 0) || wrsize == -1) setstate(badbit);
 return (*this);` -/
def Socket.write (s : Socket) (len : Int) (res : OSReadResult) (e : Int) :
    Socket × List OSCall :=
  let st := match res with
    | OSReadResult.ok n =>
        if n = 0 ∧ len > 0 then s.status.setstate badbit else s.status
    | OSReadResult.err => s.status.setstate badbit
  ({ s with status := st, errno := e }, [OSCall.osWrite])

/-- `Socket Socket::accept()`:
`int peersd = -1; if (good()) peersd = ::accept(...); _errno = errno;
 return (Socket(peersd));`
`accRes` is what `::accept` returns when it is issued (-1 on failure),
`ssoRes`/`closeRes`/`eClose`/`eCtor` feed the constructor of the returned
socket.  Returns (listener after the call, constructed client, trace). -/
def Socket.accept (s : Socket) (accRes : Int) (ssoRes closeRes : OSRes)
    (e1 eClose eCtor : Int) : Socket × Socket × List OSCall :=
  let peersd : Int := if s.status.good then accRes else -1
  let s' := { s with errno := e1 }
  let client := mkSocket peersd ssoRes closeRes eClose eCtor
  (s', client.1,
   (if s.status.good then [OSCall.osAccept] else []) ++ client.2)

/-- `int Socket::errcode()`:
`if (_errno != 0) return (_errno);
 if (getsockopt(_sd, SOL_SOCKET, SO_KEEPALIVE, ...) == -1) setstate(failbit);
 _errno = optval; return (_errno);` -/
def Socket.errcode (s : Socket) (gsoRes : OSRes) (optval : Int) :
    Socket × Int :=
  if s.errno ≠ 0 then (s, s.errno)
  else
    let st := if gsoRes = OSRes.err then s.status.setstate failbit
              else s.status
    ({ s with status := st, errno := optval }, optval)

/-- `const struct sockaddr_in &Socket::info()`:
`if (getsockname(...) == -1) setstate(failbit);` -/
def Socket.info (s : Socket) (res : OSRes) : Socket :=
  if res = OSRes.err then { s with status := s.status.setstate failbit }
  else s

/-- `const struct sockaddr_in &Socket::peerinfo()`:
`if (getpeername(...) == -1) setstate(failbit);` -/
def Socket.peerinfo (s : Socket) (res : OSRes) : Socket :=
  if res = OSRes.err then { s with status := s.status.setstate failbit }
  else s

/-- `const struct sockaddr_in &Socket::localinfo()`: builds a throwaway
socket, connects it, then
`if (getsockname(local._sd, ...) == -1) setstate(failbit);` — the only
effect on the receiver's state is the possible failbit. -/
def Socket.localinfo (s : Socket) (res : OSRes) : Socket :=
  if res = OSRes.err then { s with status := s.status.setstate failbit }
  else s

/-- OS outcome of one `this->read(&c, 1)` call inside `getline`: either one
byte `b` was stored into `c`, or `::read` returned 0 (end of stream, `c`
untouched), or -1 (error, `c` untouched).  `e` is the OS errno after the
call. -/
inductive Read1 where
  | byte (b : Int) (e : Int)
  | zero (e : Int)
  | rerr (e : Int)
deriving DecidableEq, Repr

/-- The `read(&c, 1)` step of `getline`, expressed through `Socket.read`
with `len = 1`: returns the socket after the read and the new value of the
local `char c` (updated only when a byte was actually stored). -/
def read1 (s : Socket) (c : Int) (r : Read1) : Socket × Int :=
  match r with
  | Read1.byte b e => ((s.read 1 (OSReadResult.ok 1) e).1, b)
  | Read1.zero e => ((s.read 1 (OSReadResult.ok 0) e).1, c)
  | Read1.rerr e => ((s.read 1 OSReadResult.err e).1, c)

/-- Final state of a `getline` run: the socket, the accumulated buffer
(byte values of the C++ `std::string`), the unconsumed remainder of the
byte stream, and whether the call actually returned (`done = false` means
the run was cut off by fuel or stream exhaustion, i.e. the C++ call was
still looping). -/
structure GLRes where
  sock : Socket
  buf : List Int
  rest : List Read1
  done : Bool
deriving DecidableEq, Repr

/-- `Socket &Socket::getline(std::string &buffer, char delim)`:
`char c = -1; buffer.clear();
 while (this->read(&c, 1) && c != delim && c != '\0') buffer += c;
 if (c == '\0') this->getline(buffer, delim);
 return (*this);`
State of the loop: socket `s`, buffer so far `buf`, current `c`, the
delimiter, and the stream of pending OS read outcomes.  The while test
converts the returned stream reference with `operator bool`, i.e.
`!fail()` (eofbit alone does not stop the loop).  When the loop exits with
`c == '\0'` the code re-enters `getline`, which CLEARS the buffer and
resets `c` to -1.  `fuel` bounds the number of loop iterations modelled. -/
def getlineGo : Nat → Socket → List Int → Int → Int → List Read1 → GLRes
  | 0, s, buf, _, _, stream => ⟨s, buf, stream, false⟩
  | fuel + 1, s, buf, c, delim, stream =>
    match stream with
    | [] => ⟨s, buf, [], false⟩
    | r :: rest =>
      let p := read1 s c r
      if p.1.status.failed = false ∧ p.2 ≠ delim ∧ p.2 ≠ 0 then
        getlineGo fuel p.1 (buf ++ [p.2]) p.2 delim rest
      else if p.2 = 0 then
        getlineGo fuel p.1 [] (-1) delim rest
      else
        ⟨p.1, buf, rest, true⟩

/-- Entry point of `getline`: fresh `c = -1` and a cleared buffer. -/
def Socket.getline (s : Socket) (fuel : Nat) (delim : Int)
    (stream : List Read1) : GLRes :=
  getlineGo fuel s [] (-1) delim stream

/-- Split a character list at every `'.'` (model of the scanning
`inet_pton` does on a dotted-decimal string). -/
def splitDots : List Char → List (List Char)
  | [] => [[]]
  | c :: rest =>
    let r := splitDots rest
    if c = '.' then [] :: r
    else
      match r with
      | [] => [[c]]
      | h :: t => (c :: h) :: t

/-- One dotted-decimal component: 1 to 3 decimal digits, value at most
255. -/
def parseOctet (cs : List Char) : Option Nat :=
  if cs.length = 0 ∨ 3 < cs.length then none
  else if cs.all Char.isDigit then
    let n := cs.foldl (fun a c => a * 10 + (c.toNat - 48)) 0
    if n ≤ 255 then some n else none
  else none

/-- Model of `inet_pton(AF_INET, addrstr, dst)`: returns the pair
(return code, value stored in `dst`).  Per POSIX it returns 1 on success,
0 when the string is not a valid dotted-decimal IPv4 address, and -1 only
for an unsupported address family — which cannot happen here because the
family is the constant `AF_INET`.  On failure `dst` keeps its prior
contents; the caller zero-initialises it, so the second component is 0
then.  The stored address is represented abstractly as the combined
octet value. -/
def inetPtonV4 (addrstr : String) : Int × Nat :=
  match (splitDots addrstr.toList).mapM parseOctet with
  | some [a, b, c, d] => (1, ((a * 256 + b) * 256 + c) * 256 + d)
  | _ => (0, 0)

/-- `static bool Socket::strToAddr(const char *addrstr, in_addr_t *buffer)`:
`struct sockaddr_in st_addr = { 0 };
 if (inet_pton(AF_INET, addrstr, &(st_addr.sin_addr)) == -1) return (false);
 *buffer = st_addr.sin_addr.s_addr; return (true);`
The test compares the result against -1, which `inet_pton` never returns
for `AF_INET`; a malformed string yields return code 0 and this function
still returns `true`, with the zero-initialised address. -/
def Socket.strToAddr (addrstr : String) : Bool × Nat :=
  let r := inetPtonV4 addrstr
  if r.1 = -1 then (false, 0) else (true, r.2)

/-- `void Socket::listen(in_port_t port, const char *addrstr, int count)`:
`in_addr_t addr = 0;
 if (this->strToAddr(addrstr, &addr) == false) setstate(failbit);
 this->listen(port, addr, count);` -/
def Socket.listenStr (s : Socket) (addrstr : String) (bindRes lisRes : OSRes)
    (e : Int) : Socket × List OSCall :=
  let r := Socket.strToAddr addrstr
  let s1 := if r.1 = false then
              { s with status := s.status.setstate failbit }
            else s
  s1.listen bindRes lisRes e

/-- `void Socket::connect(in_port_t port, const char *addrstr)`:
`in_addr_t addr = 0;
 if (this->strToAddr(addrstr, &addr) == false) setstate(failbit);
 this->connect(port, addr);` -/
def Socket.connectStr (s : Socket) (addrstr : String) (res : OSRes)
    (e : Int) : Socket × List OSCall :=
  let r := Socket.strToAddr addrstr
  let s1 := if r.1 = false then
              { s with status := s.status.setstate failbit }
            else s
  s1.connect res e

/-- One call of the public interface other than `close()`, together with
the OS outcomes it consumes.  `accept` mutates the listening socket only
by recapturing `errno` (the freshly constructed client is a different
object); `strerror` delegates to `errcode`, so its state effect is the
`errcode` one. -/
inductive Op where
  | opListen (bindRes lisRes : OSRes) (e : Int)
  | opListenStr (addrstr : String) (bindRes lisRes : OSRes) (e : Int)
  | opConnect (res : OSRes) (e : Int)
  | opConnectStr (addrstr : String) (res : OSRes) (e : Int)
  | opAccept (e : Int)
  | opRead (len : Int) (res : OSReadResult) (e : Int)
  | opGetline (fuel : Nat) (delim : Int) (stream : List Read1)
  | opWrite (len : Int) (res : OSReadResult) (e : Int)
  | opErrcode (gsoRes : OSRes) (optval : Int)
  | opInfo (res : OSRes)
  | opPeerinfo (res : OSRes)
  | opLocalinfo (res : OSRes)
deriving Repr

/-- Effect of one non-`close` public operation on the socket it is called
on. -/
def step (s : Socket) : Op → Socket
  | Op.opListen br lr e => (s.listen br lr e).1
  | Op.opListenStr a br lr e => (s.listenStr a br lr e).1
  | Op.opConnect r e => (s.connect r e).1
  | Op.opConnectStr a r e => (s.connectStr a r e).1
  | Op.opAccept e => { s with errno := e }
  | Op.opRead len r e => (s.read len r e).1
  | Op.opGetline fuel delim stream => (s.getline fuel delim stream).sock
  | Op.opWrite len r e => (s.write len r e).1
  | Op.opErrcode r v => (s.errcode r v).1
  | Op.opInfo r => s.info r
  | Op.opPeerinfo r => s.peerinfo r
  | Op.opLocalinfo r => s.localinfo r

/-- Run a sequence of non-`close` public operations left to right. -/
def run (s : Socket) (ops : List Op) : Socket :=
  ops.foldl step s

/-! ## Helper lemmas -/

theorem setstate_fail_mono (s b : IOState) (h : s.fail = true) :
    (s.setstate b).fail = true := by
  simp [IOState.setstate, h]

theorem setstate_bad_mono (s b : IOState) (h : s.bad = true) :
    (s.setstate b).bad = true := by
  simp [IOState.setstate, h]

theorem good_false_of_fail (s : IOState) (h : s.fail = true) :
    s.good = false := by
  simp [IOState.good, h]

theorem good_false_of_bad (s : IOState) (h : s.bad = true) :
    s.good = false := by
  simp [IOState.good, h]

theorem read1_fail_mono (s : Socket) (c : Int) (r : Read1)
    (h : s.status.fail = true) : (read1 s c r).1.status.fail = true := by
  cases r <;> simp [read1, Socket.read, IOState.setstate, h]

theorem read1_bad_mono (s : Socket) (c : Int) (r : Read1)
    (h : s.status.bad = true) : (read1 s c r).1.status.bad = true := by
  cases r <;> simp [read1, Socket.read, IOState.setstate, h]

theorem getlineGo_fail_mono (fuel : Nat) :
    ∀ (s : Socket) (buf : List Int) (c delim : Int) (stream : List Read1),
      s.status.fail = true →
      (getlineGo fuel s buf c delim stream).sock.status.fail = true := by
  induction fuel with
  | zero => intro s buf c delim stream h; simpa [getlineGo] using h
  | succ n ih =>
      intro s buf c delim stream h
      cases stream with
      | nil => simpa [getlineGo] using h
      | cons r rest =>
          have h1 := read1_fail_mono s c r h
          simp only [getlineGo]
          split
          · exact ih _ _ _ _ _ h1
          · split
            · exact ih _ _ _ _ _ h1
            · simpa using h1

theorem getlineGo_bad_mono (fuel : Nat) :
    ∀ (s : Socket) (buf : List Int) (c delim : Int) (stream : List Read1),
      s.status.bad = true →
      (getlineGo fuel s buf c delim stream).sock.status.bad = true := by
  induction fuel with
  | zero => intro s buf c delim stream h; simpa [getlineGo] using h
  | succ n ih =>
      intro s buf c delim stream h
      cases stream with
      | nil => simpa [getlineGo] using h
      | cons r rest =>
          have h1 := read1_bad_mono s c r h
          simp only [getlineGo]
          split
          · exact ih _ _ _ _ _ h1
          · split
            · exact ih _ _ _ _ _ h1
            · simpa using h1

theorem step_fail_mono (s : Socket) (op : Op) (h : s.status.fail = true) :
    (step s op).status.fail = true := by
  have hg : s.status.good = false := good_false_of_fail _ h
  cases op with
  | opListen br lr e => simp [step, Socket.listen, hg, h]
  | opListenStr a br lr e =>
      simp only [step, Socket.listenStr]
      split
      · simp [Socket.listen, good_false_of_fail _ (setstate_fail_mono _ _ h),
          setstate_fail_mono _ _ h]
      · simp [Socket.listen, hg, h]
  | opConnect r e => simp [step, Socket.connect, hg, h]
  | opConnectStr a r e =>
      simp only [step, Socket.connectStr]
      split
      · simp [Socket.connect, good_false_of_fail _ (setstate_fail_mono _ _ h),
          setstate_fail_mono _ _ h]
      · simp [Socket.connect, hg, h]
  | opAccept e => simpa using h
  | opRead len r e =>
      cases r with
      | ok n =>
          simp only [step, Socket.read]
          split <;> simp [IOState.setstate, h]
      | err => simp [step, Socket.read, IOState.setstate, h]
  | opGetline fuel delim stream =>
      exact getlineGo_fail_mono fuel s [] (-1) delim stream h
  | opWrite len r e =>
      cases r with
      | ok n =>
          simp only [step, Socket.write]
          split <;> simp [IOState.setstate, h]
      | err => simp [step, Socket.write, IOState.setstate, h]
  | opErrcode r v =>
      simp only [step, Socket.errcode]
      split
      · simpa using h
      · split <;> simp [IOState.setstate, h]
  | opInfo r =>
      simp only [step, Socket.info]
      split <;> simp [IOState.setstate, h]
  | opPeerinfo r =>
      simp only [step, Socket.peerinfo]
      split <;> simp [IOState.setstate, h]
  | opLocalinfo r =>
      simp only [step, Socket.localinfo]
      split <;> simp [IOState.setstate, h]

theorem step_bad_mono (s : Socket) (op : Op) (h : s.status.bad = true) :
    (step s op).status.bad = true := by
  have hg : s.status.good = false := good_false_of_bad _ h
  cases op with
  | opListen br lr e => simp [step, Socket.listen, hg, h]
  | opListenStr a br lr e =>
      simp only [step, Socket.listenStr]
      split
      · simp [Socket.listen, good_false_of_bad _ (setstate_bad_mono _ _ h),
          setstate_bad_mono _ _ h]
      · simp [Socket.listen, hg, h]
  | opConnect r e => simp [step, Socket.connect, hg, h]
  | opConnectStr a r e =>
      simp only [step, Socket.connectStr]
      split
      · simp [Socket.connect, good_false_of_bad _ (setstate_bad_mono _ _ h),
          setstate_bad_mono _ _ h]
      · simp [Socket.connect, hg, h]
  | opAccept e => simpa using h
  | opRead len r e =>
      cases r with
      | ok n =>
          simp only [step, Socket.read]
          split <;> simp [IOState.setstate, h]
      | err => simp [step, Socket.read, IOState.setstate, h]
  | opGetline fuel delim stream =>
      exact getlineGo_bad_mono fuel s [] (-1) delim stream h
  | opWrite len r e =>
      cases r with
      | ok n =>
          simp only [step, Socket.write]
          split <;> simp [IOState.setstate, h]
      | err => simp [step, Socket.write, IOState.setstate, h]
  | opErrcode r v =>
      simp only [step, Socket.errcode]
      split
      · simpa using h
      · split <;> simp [IOState.setstate, h]
  | opInfo r =>
      simp only [step, Socket.info]
      split <;> simp [IOState.setstate, h]
  | opPeerinfo r =>
      simp only [step, Socket.peerinfo]
      split <;> simp [IOState.setstate, h]
  | opLocalinfo r =>
      simp only [step, Socket.localinfo]
      split <;> simp [IOState.setstate, h]

/-! ## Claims -/

/-- C1 (counterexample): the claim says a socket with `fail` or `bad` set
never issues the OS read call and keeps its status unchanged; but
`Socket::read` has no status guard, so a socket with `failbit` set still
issues the OS read (the trace is nonempty), and an erroring read changes
the status by adding `badbit`. -/
theorem c1_read_not_guarded_cex :
    (Socket.read ⟨3, 0, ⟨false, true, false⟩⟩ 1 OSReadResult.err 5).2 ≠ [] ∧
    (Socket.read ⟨3, 0, ⟨false, true, false⟩⟩ 1 OSReadResult.err 5).1.status ≠
      (⟨false, true, false⟩ : IOState) := by
  decide

/-- C1 (amended): for a socket with `fail` or `bad` set, `listen` and
`connect` issue no OS call and leave the status unchanged; `read`, by
contrast, is unguarded and always issues exactly one OS read call. -/
theorem c1_failure_short_circuit (s : Socket)
    (h : s.status.fail = true ∨ s.status.bad = true)
    (br lr cr : OSRes) (e : Int) (len : Int) (res : OSReadResult) :
    (s.listen br lr e).2 = [] ∧ (s.listen br lr e).1.status = s.status ∧
    (s.connect cr e).2 = [] ∧ (s.connect cr e).1.status = s.status ∧
    (s.read len res e).2 = [OSCall.osRead] := by
  have hg : s.status.good = false := by
    cases h with
    | inl h => exact good_false_of_fail _ h
    | inr h => exact good_false_of_bad _ h
  refine ⟨?_, ?_, ?_, ?_, ?_⟩ <;>
    simp [Socket.listen, Socket.connect, Socket.read, hg]

/-- C1 witness: instantiation of `c1_failure_short_circuit` on a socket
with `failbit` set. -/
theorem c1_failure_short_circuit_witness :
    ((⟨3, 0, ⟨false, true, false⟩⟩ : Socket).status.fail = true ∨
      (⟨3, 0, ⟨false, true, false⟩⟩ : Socket).status.bad = true) ∧
    ((Socket.listen ⟨3, 0, ⟨false, true, false⟩⟩ OSRes.ok OSRes.ok 0).2 = [] ∧
     (Socket.listen ⟨3, 0, ⟨false, true, false⟩⟩ OSRes.ok OSRes.ok 0).1.status =
       (⟨false, true, false⟩ : IOState) ∧
     (Socket.connect ⟨3, 0, ⟨false, true, false⟩⟩ OSRes.ok 0).2 = [] ∧
     (Socket.connect ⟨3, 0, ⟨false, true, false⟩⟩ OSRes.ok 0).1.status =
       (⟨false, true, false⟩ : IOState) ∧
     (Socket.read ⟨3, 0, ⟨false, true, false⟩⟩ 1 OSReadResult.err 0).2 =
       [OSCall.osRead]) :=
  ⟨Or.inl rfl,
   c1_failure_short_circuit ⟨3, 0, ⟨false, true, false⟩⟩ (Or.inl rfl)
     OSRes.ok OSRes.ok OSRes.ok 0 1 OSReadResult.err⟩

/-- C2: `close()` with a successful OS `::close` does NOT reset the status
to `good`: the source writes `setstate(goodbit)`, and `setstate` merges the
(empty) `goodbit` mask into the current bits, so a previously set `failbit`
survives.  Here a socket with `failbit` closes successfully and keeps
exactly its failed status instead of the claimed clean state. -/
theorem c2_close_does_not_reset :
    (Socket.close ⟨4, 0, ⟨false, true, false⟩⟩ OSRes.ok 0).1.status =
      (⟨false, true, false⟩ : IOState) ∧
    (Socket.close ⟨4, 0, ⟨false, true, false⟩⟩ OSRes.ok 0).1.status ≠
      goodState := by
  decide

/-- C3 (counterexample): the claim says the bytes read before a null byte
are retained in the returned buffer.  On the stream
`'a' 'b' '\0' 'c' 'd' '\n'` the call returns buffer `['c','d']`
(= [99, 100]): the recursion after the null byte cleared the buffer, so
`'a'` (97) and `'b'` (98) are gone. -/
theorem c3_null_discards_prefix_cex :
    (Socket.getline ⟨3, 0, goodState⟩ 10 10
      [Read1.byte 97 0, Read1.byte 98 0, Read1.byte 0 0,
       Read1.byte 99 0, Read1.byte 100 0, Read1.byte 10 0]).buf =
        [99, 100] ∧
    (97 : Int) ∉ (Socket.getline ⟨3, 0, goodState⟩ 10 10
      [Read1.byte 97 0, Read1.byte 98 0, Read1.byte 0 0,
       Read1.byte 99 0, Read1.byte 100 0, Read1.byte 10 0]).buf ∧
    (Socket.getline ⟨3, 0, goodState⟩ 10 10
      [Read1.byte 97 0, Read1.byte 98 0, Read1.byte 0 0,
       Read1.byte 99 0, Read1.byte 100 0, Read1.byte 10 0]).done = true := by
  decide

/-- C3 (amended): when the byte just read is a null byte, the loop exits
and `getline` recurses, and the recursive call clears the buffer and
resets the scan: whatever was accumulated (and whatever the previous
character was) is discarded, the run restarting on the remaining stream
with an empty buffer. -/
theorem c3_null_restarts_cleared (fuel : Nat) (s : Socket)
    (buf : List Int) (c delim e : Int) (rest : List Read1) :
    getlineGo (fuel + 1) s buf c delim (Read1.byte 0 e :: rest) =
      getlineGo fuel (s.read 1 (OSReadResult.ok 1) e).1 [] (-1) delim rest := by
  simp [getlineGo, read1]

/-- C4: the claim says `strToAddr` rejects malformed dotted-decimal input
and the string overloads then set `fail`.  The source compares the
`inet_pton` result against -1, but for `AF_INET` `inet_pton` reports a
malformed string by returning 0, never -1; so `strToAddr "not.an.ip"`
returns `true` (with the zero-initialised address 0), and the string
`listen`/`connect` overloads proceed without setting `fail`. -/
theorem c4_strToAddr_accepts_malformed :
    Socket.strToAddr "not.an.ip" = (true, 0) ∧
    (Socket.listenStr ⟨3, 0, goodState⟩ "not.an.ip" OSRes.ok OSRes.ok 0).1.status
      = goodState ∧
    (Socket.connectStr ⟨3, 0, goodState⟩ "not.an.ip" OSRes.ok 0).1.status
      = goodState := by
  decide

/-- Sanity check of the conversion model: a well-formed dotted-decimal
string parses to its address value. -/
theorem strToAddr_wellformed :
    Socket.strToAddr "127.0.0.1" = (true, 2130706433) := by
  decide

/-- C5: the claim says move-construction transfers the descriptor and
leaves the source unbound (`_sd = -1`).  The move constructor takes a
`const Socket&&`, so `std::move(other._sd)` merely copies the descriptor:
after moving from a socket holding descriptor 5, the source still holds 5
(`isOpen()` still true) and both objects reference the same descriptor. -/
theorem c5_move_copies_descriptor :
    (moveConstruct ⟨5, 0, goodState⟩).2.sd = 5 ∧
    (moveConstruct ⟨5, 0, goodState⟩).2.isOpen = true ∧
    (moveConstruct ⟨5, 0, goodState⟩).1.sd = 5 ∧
    (moveConstruct ⟨5, 0, goodState⟩).1.sd =
      (moveConstruct ⟨5, 0, goodState⟩).2.sd := by
  decide

/-- C6: whenever the constructor's `setsockopt(SO_REUSEADDR)` call fails
(whatever the nested `::close` then returns), the constructed socket ends
with the descriptor reset to the -1 sentinel (`isOpen()` false), with
`failbit` set, and with the `::close` call actually issued. -/
theorem c6_ctor_option_failure (sd : Int) (closeRes : OSRes)
    (eClose eFinal : Int) :
    (mkSocket sd OSRes.err closeRes eClose eFinal).1.sd = -1 ∧
    (mkSocket sd OSRes.err closeRes eClose eFinal).1.isOpen = false ∧
    (mkSocket sd OSRes.err closeRes eClose eFinal).1.status.fail = true ∧
    OSCall.osClose ∈ (mkSocket sd OSRes.err closeRes eClose eFinal).2 := by
  cases closeRes <;>
    simp [mkSocket, Socket.close, Socket.isOpen, IOState.setstate,
      IOState.failed, goodState, failbit]

/-- C7: over any sequence of public-interface operations other than
`close()`, a `fail` or `bad` bit that is set never clears: every such
operation only ever merges bits into the status (`setstate` semantics), so
there is no implicit return to `good`. -/
theorem c7_no_implicit_clear (s : Socket) (ops : List Op) :
    (s.status.fail = true → (run s ops).status.fail = true) ∧
    (s.status.bad = true → (run s ops).status.bad = true) := by
  induction ops generalizing s with
  | nil => exact ⟨fun h => h, fun h => h⟩
  | cons op rest ih =>
      refine ⟨fun h => ?_, fun h => ?_⟩
      · have h1 := step_fail_mono s op h
        simpa [run, List.foldl] using (ih (step s op)).1 h1
      · have h1 := step_bad_mono s op h
        simpa [run, List.foldl] using (ih (step s op)).2 h1

/-- C7 witness: a socket with both `fail` and `bad` set keeps them across a
concrete sequence of read/connect/errcode/getline/write/listen calls. -/
theorem c7_no_implicit_clear_witness :
    (⟨3, 0, ⟨false, true, true⟩⟩ : Socket).status.fail = true ∧
    (⟨3, 0, ⟨false, true, true⟩⟩ : Socket).status.bad = true ∧
    (run ⟨3, 0, ⟨false, true, true⟩⟩
      [Op.opRead 1 OSReadResult.err 7, Op.opConnect OSRes.ok 0,
       Op.opErrcode OSRes.err 2, Op.opGetline 5 10 [Read1.byte 104 0],
       Op.opWrite 3 (OSReadResult.ok 0) 1,
       Op.opListen OSRes.err OSRes.err 0]).status.fail = true ∧
    (run ⟨3, 0, ⟨false, true, true⟩⟩
      [Op.opRead 1 OSReadResult.err 7, Op.opConnect OSRes.ok 0,
       Op.opErrcode OSRes.err 2, Op.opGetline 5 10 [Read1.byte 104 0],
       Op.opWrite 3 (OSReadResult.ok 0) 1,
       Op.opListen OSRes.err OSRes.err 0]).status.bad = true :=
  ⟨rfl, rfl,
   (c7_no_implicit_clear ⟨3, 0, ⟨false, true, true⟩⟩
     [Op.opRead 1 OSReadResult.err 7, Op.opConnect OSRes.ok 0,
      Op.opErrcode OSRes.err 2, Op.opGetline 5 10 [Read1.byte 104 0],
      Op.opWrite 3 (OSReadResult.ok 0) 1,
      Op.opListen OSRes.err OSRes.err 0]).1 rfl,
   (c7_no_implicit_clear ⟨3, 0, ⟨false, true, true⟩⟩
     [Op.opRead 1 OSReadResult.err 7, Op.opConnect OSRes.ok 0,
      Op.opErrcode OSRes.err 2, Op.opGetline 5 10 [Read1.byte 104 0],
      Op.opWrite 3 (OSReadResult.ok 0) 1,
      Op.opListen OSRes.err OSRes.err 0]).2 rfl⟩

/-- C8: `listen` issues `::bind` exactly when the socket is `good` before
the call, issues `::listen` exactly when the socket is still `good` after
the bind step (i.e. was `good` and the bind succeeded), sets `failbit` and
skips `::listen` when the bind fails, and the trace is always one of
`[]`, `[bind]`, `[bind, listen]` — bind strictly first. -/
theorem c8_listen_sequencing (s : Socket) (br lr : OSRes) (e : Int) :
    (OSCall.osBind ∈ (s.listen br lr e).2 ↔ s.status.good = true) ∧
    (OSCall.osListen ∈ (s.listen br lr e).2 ↔
      (s.status.good = true ∧ br = OSRes.ok)) ∧
    (s.status.good = true → br = OSRes.err →
      (s.listen br lr e).1.status = s.status.setstate failbit ∧
      OSCall.osListen ∉ (s.listen br lr e).2) ∧
    ((s.listen br lr e).2 = [] ∨ (s.listen br lr e).2 = [OSCall.osBind] ∨
      (s.listen br lr e).2 = [OSCall.osBind, OSCall.osListen]) := by
  cases hg : s.status.good <;> cases br <;> cases lr <;>
    simp [Socket.listen, hg]

/-- C8 witness: instantiation of `c8_listen_sequencing` on a good socket
whose bind fails. -/
theorem c8_listen_sequencing_witness :
    (⟨3, 0, goodState⟩ : Socket).status.good = true ∧
    ((Socket.listen ⟨3, 0, goodState⟩ OSRes.err OSRes.ok 0).1.status =
        goodState.setstate failbit ∧
      OSCall.osListen ∉ (Socket.listen ⟨3, 0, goodState⟩ OSRes.err OSRes.ok 0).2) :=
  ⟨rfl,
   (c8_listen_sequencing ⟨3, 0, goodState⟩ OSRes.err OSRes.ok 0).2.2.1 rfl rfl⟩

/-- C9: `read` with an OS result of 0 bytes while the requested length is
positive sets `eofbit`; an OS error result sets `badbit`; in every case the
error code is recaptured into `_errno` and the same socket object (same
descriptor) is returned. -/
theorem c9_read_eof_bad (s : Socket) (len e : Int) (res : OSReadResult) :
    ((s.read len res e).1.errno = e) ∧
    (len > 0 → res = OSReadResult.ok 0 →
      (s.read len res e).1.status.eof = true) ∧
    (res = OSReadResult.err → (s.read len res e).1.status.bad = true) ∧
    ((s.read len res e).1.sd = s.sd) := by
  cases res with
  | ok n =>
      refine ⟨rfl, fun hlen hres => ?_, fun hres => by simp at hres, rfl⟩
      have hn : n = 0 := by simpa using hres
      simp [Socket.read, hn, hlen, IOState.setstate, eofbit]
  | err =>
      exact ⟨rfl, fun _ hres => by simp at hres,
        fun _ => by simp [Socket.read, IOState.setstate, badbit], rfl⟩

/-- C9 witness: a zero-byte OS read with requested length 1 sets `eofbit`,
and an erroring read sets `badbit`. -/
theorem c9_read_eof_bad_witness :
    (1 : Int) > 0 ∧
    (Socket.read ⟨3, 0, goodState⟩ 1 (OSReadResult.ok 0) 7).1.status.eof
      = true ∧
    (Socket.read ⟨3, 0, goodState⟩ 1 OSReadResult.err 7).1.status.bad
      = true :=
  ⟨by decide,
   (c9_read_eof_bad ⟨3, 0, goodState⟩ 1 7 (OSReadResult.ok 0)).2.1
     (by decide) rfl,
   (c9_read_eof_bad ⟨3, 0, goodState⟩ 1 7 OSReadResult.err).2.2.1 rfl⟩

/-- C10: when the OS accept fails (returns -1) or is skipped because the
listening socket is not `good`, the returned socket is built from the -1
sentinel; its constructor's `setsockopt` call against that invalid
descriptor fails (modelled by the `OSRes.err` argument, POSIX `EBADF`),
so the returned socket ends with `isOpen()` false and `failbit` set,
whatever the nested `::close` returns. -/
theorem c10_accept_failure (s : Socket) (accRes : Int) (closeRes : OSRes)
    (e1 eClose eCtor : Int)
    (_h : s.status.good = false ∨ accRes = -1) :
    ((s.accept accRes OSRes.err closeRes e1 eClose eCtor).2.1.sd = -1) ∧
    ((s.accept accRes OSRes.err closeRes e1 eClose eCtor).2.1.isOpen
      = false) ∧
    ((s.accept accRes OSRes.err closeRes e1 eClose eCtor).2.1.status.fail
      = true) := by
  cases closeRes <;>
    simp [Socket.accept, mkSocket, Socket.close, Socket.isOpen,
      IOState.setstate, IOState.failed, goodState, failbit]

/-- C10 witness: accepting on a socket with `failbit` set yields an
unopened, failed client socket. -/
theorem c10_accept_failure_witness :
    ((⟨3, 0, ⟨false, true, false⟩⟩ : Socket).status.good = false ∨
      (7 : Int) = -1) ∧
    ((Socket.accept ⟨3, 0, ⟨false, true, false⟩⟩ 7 OSRes.err OSRes.ok
        1 2 3).2.1.sd = -1 ∧
      (Socket.accept ⟨3, 0, ⟨false, true, false⟩⟩ 7 OSRes.err OSRes.ok
        1 2 3).2.1.isOpen = false ∧
      (Socket.accept ⟨3, 0, ⟨false, true, false⟩⟩ 7 OSRes.err OSRes.ok
        1 2 3).2.1.status.fail = true) :=
  ⟨Or.inl rfl,
   c10_accept_failure ⟨3, 0, ⟨false, true, false⟩⟩ 7 OSRes.ok 1 2 3
     (Or.inl rfl)⟩

end LibSocket
